import Mathlib

/-!
# Verification of the YaMDb rating/review subsystem

Shallow embedding of the review-lifecycle and rating-aggregation code of
the repository (`api/views.py`, `api/models.py`, `api/serializers.py`,
`api/permissions.py`) together with proofs about it.

Conventions of the embedding:
* Django model rows become Lean structures; the database becomes a `DB`
  record holding the tables.  `Title` and `Rate` rows are keyed by the
  title's primary key (`Rate` is looked up by `title_id` in the source),
  so those tables are partial maps `Nat → Option _`; reviews are kept as
  a list of rows, as the source queries them with `filter`/`get`.
* Python integers are unbounded, so scores and ledger fields are `Int`;
  Python's `//` is floor division, embedded as `Int.fdiv` guarded by a
  zero test (`ZeroDivisionError` becomes the error `PyErr.zeroDivision`).
* An HTTP operation is embedded as a function `DB → ... → DB × Option PyErr`:
  the returned `DB` is the storage state after the call, including the
  partial mutations that Django persists before an exception is raised
  (each `.save()` takes effect when executed; there is no
  transaction-wrapping in the source, so a later exception does not roll
  an earlier `.save()` back).
* Exceptions raised by the source map to `PyErr` values: `Http404` from
  `get_object_or_404` to `notFound`, the serializer score-validator
  failure to `invalidScore`, `check_review`'s ValidationError to
  `duplicateReview`, `check_category_genre`'s ValidationError to
  `validationErr`, the database unique-constraint violation on
  `unique_together ('title', 'author')` to `integrityError`.
* Year validators on `Title` (1900 .. current year) are not modelled:
  they only add rejection paths that leave the state unchanged and no
  claim depends on them.
-/

/-- Errors observable at the boundary of an embedded operation. -/
inductive PyErr where
  | notFound
  | invalidScore
  | duplicateReview
  | validationErr
  | integrityError
  | zeroDivision
deriving DecidableEq, Repr

/-- A row of the `Review` model (`api/models.py`): title and author
foreign keys, the 1..10 score and the text. -/
structure ReviewRow where
  id : Nat
  titleId : Nat
  author : Nat
  score : Int
  text : String
deriving DecidableEq, Repr

/-- A row of the `Rate` model (`api/models.py`): the per-title ledger of
`sum_vote` and `count_vote`. -/
structure RateRow where
  sum_vote : Int
  count_vote : Int
deriving DecidableEq, Repr

/-- A row of the `Title` model (`api/models.py`).  `category` holds the
category slug, `genres` the many-to-many genre slugs. -/
structure TitleRow where
  name : String
  year : Int
  rating : Option Int
  description : Option String
  category : Option String
  genres : List String
deriving DecidableEq, Repr

/-- A user's role (`api/models.py`, `Role` text choices). -/
inductive Role where
  | user
  | moderator
  | admin
deriving DecidableEq, Repr

/-- The relevant database state: titles and ledgers keyed by title id,
reviews as rows, user roles keyed by user id, and the slug tables for
categories and genres. -/
structure DB where
  titles : Nat → Option TitleRow
  rates : Nat → Option RateRow
  reviews : List ReviewRow
  users : Nat → Option Role
  categories : List String
  genreSlugs : List String

/-- Store a title row (`title.save()`). -/
def setTitle (db : DB) (tid : Nat) (t : TitleRow) : DB :=
  { db with titles := fun k => if k = tid then some t else db.titles k }

/-- Store a ledger row (`rate.save()`). -/
def setRate (db : DB) (tid : Nat) (r : RateRow) : DB :=
  { db with rates := fun k => if k = tid then some r else db.rates k }

/-- `get_object_or_404(Review, pk, title)`: DRF's `get_object` on the
review queryset, which `get_queryset` restricts to the title's reviews. -/
def findReview (db : DB) (tid pk : Nat) : Option ReviewRow :=
  db.reviews.find? (fun r => r.id == pk && r.titleId == tid)

/-- `get_object_or_404(Review, author=request.user, title_id=...)` in
`perform_update`. -/
def findOwnReview (db : DB) (requester tid : Nat) : Option ReviewRow :=
  db.reviews.find? (fun r => r.author == requester && r.titleId == tid)

/-- Truthiness of `Review.objects.filter(author=..., title_id=...)` in
`perform_create`, fed to `ReviewSerializer.check_review`. -/
def hasOwnReview (db : DB) (requester tid : Nat) : Bool :=
  db.reviews.any (fun r => r.author == requester && r.titleId == tid)

/-- Whether saving the review `pk` with author `requester` and title
`tid` would collide with the database unique constraint generated by
`unique_together ('title', 'author')` on `Review`. -/
def uniqueClash (db : DB) (pk requester tid : Nat) : Bool :=
  db.reviews.any (fun r => r.id != pk && r.author == requester && r.titleId == tid)

/-- Python `//` on ints: floor division, raising ZeroDivisionError on a
zero divisor. -/
def pyFloorDiv (a b : Int) : Except PyErr Int :=
  if b = 0 then .error .zeroDivision else .ok (Int.fdiv a b)

/-- The review-create endpoint: DRF `create` runs
`serializer.is_valid(raise_exception=True)` (the score validators
`MinValueValidator(1)`/`MaxValueValidator(10)` of `Review.score`), then
`ReviewViewSet.perform_create` (`api/views.py` lines 79-95): 404 on a
missing title, `check_review` rejection of a duplicate, save of the new
review, 404 on a missing ledger, ledger adjustment `+score, +1`, and the
rating write `rate.sum_vote // rate.count_vote`. -/
def createReview (db : DB) (requester tid newId : Nat) (score : Int) (text : String) :
    DB × Option PyErr :=
  if 1 ≤ score ∧ score ≤ 10 then
    match db.titles tid with
    | none => (db, some .notFound)
    | some title =>
      if hasOwnReview db requester tid then (db, some .duplicateReview)
      else
        let db1 : DB := { db with reviews := db.reviews ++ [⟨newId, tid, requester, score, text⟩] }
        match db1.rates tid with
        | none => (db1, some .notFound)
        | some rate =>
          let rate1 : RateRow := ⟨rate.sum_vote + score, rate.count_vote + 1⟩
          let db2 := setRate db1 tid rate1
          match pyFloorDiv rate1.sum_vote rate1.count_vote with
          | .error e => (db2, some e)
          | .ok rv => (setTitle db2 tid { title with rating := some rv }, none)
  else (db, some .invalidScore)

/-- The review-update endpoint: DRF `update` fetches the pk-targeted
instance from the title's queryset (404 if absent), validates the score,
then `ReviewViewSet.perform_update` (`api/views.py` lines 97-113): 404
unless the REQUESTER has a review on the title, in-memory subtraction of
that review's score, `serializer.save(author=request.user, title_id=...)`
which rewrites the pk-targeted row (failing on the `('title','author')`
unique constraint if that would duplicate the requester's pair), addition
of the new score, `rate.save()`, and the rating write. -/
def updateReview (db : DB) (requester tid pk : Nat) (score : Int) (text : String) :
    DB × Option PyErr :=
  match db.titles tid with
  | none => (db, some .notFound)
  | some _ =>
    match findReview db tid pk with
    | none => (db, some .notFound)
    | some _inst =>
      if 1 ≤ score ∧ score ≤ 10 then
        match findOwnReview db requester tid with
        | none => (db, some .notFound)
        | some own =>
          match db.rates tid with
          | none => (db, some .notFound)
          | some rate =>
            if uniqueClash db pk requester tid then (db, some .integrityError)
            else
              let saved := db.reviews.map fun r =>
                if r.id == pk then
                  { r with titleId := tid, author := requester, score := score, text := text }
                else r
              let db1 : DB := { db with reviews := saved }
              let sum1 := rate.sum_vote - own.score + score
              let db2 := setRate db1 tid ⟨sum1, rate.count_vote⟩
              match db2.titles tid with
              | none => (db2, some .notFound)
              | some title =>
                match pyFloorDiv sum1 rate.count_vote with
                | .error e => (db2, some e)
                | .ok rv =>
                  (setTitle db2 tid { title with rating := some rv }, none)
      else (db, some .invalidScore)

/-- The review-delete endpoint: DRF `destroy` fetches the pk-targeted
instance from the title's queryset (404 if absent), then
`ReviewViewSet.perform_destroy` (`api/views.py` lines 115-124): 404 on a
missing title or ledger, ledger adjustment `-instance.score, -1`,
`rate.save()`, the rating write `rate.sum_vote // rate.count_vote`
(with NO guard against `count_vote == 0`), `title.save()`, and finally
`instance.delete()`.  The ledger save precedes the division, so on a
ZeroDivisionError the adjusted ledger is already persisted while the
review row survives. -/
def destroyReview (db : DB) (tid pk : Nat) : DB × Option PyErr :=
  match db.titles tid with
  | none => (db, some .notFound)
  | some _ =>
    match findReview db tid pk with
    | none => (db, some .notFound)
    | some inst =>
      match db.rates tid with
      | none => (db, some .notFound)
      | some rate =>
        let rate1 : RateRow := ⟨rate.sum_vote - inst.score, rate.count_vote - 1⟩
        let db1 := setRate db tid rate1
        match db1.titles tid with
        | none => (db1, some .notFound)
        | some title =>
          match pyFloorDiv rate1.sum_vote rate1.count_vote with
          | .error e => (db1, some e)
          | .ok rv =>
            let db2 := setTitle db1 tid { title with rating := some rv }
            ({ db2 with reviews := db2.reviews.filter (fun r => r.id != pk) }, none)

/-- The `genre` part of `TitleSerializer.check_category_genre`
(`api/serializers.py` lines 139-147): each requested genre slug must
exist in the Genre table, otherwise a ValidationError is raised; the
existing ones are collected in order. -/
def checkGenres (db : DB) : List String → Except PyErr (List String)
  | [] => .ok []
  | g :: rest =>
    if g ∈ db.genreSlugs then
      match checkGenres db rest with
      | .error e => .error e
      | .ok gs => .ok (g :: gs)
    else .error .validationErr

/-- `TitleSerializer.check_category_genre` (`api/serializers.py` lines
130-148): when a category value is present it must name an existing
Category (else ValidationError); `real_category` is `None` when the
request carries no category.  Genres are then checked as above. -/
def check_category_genre (db : DB) (category : Option String) (genre : List String) :
    Except PyErr (Option String × List String) :=
  match category with
  | some c =>
    if c ∈ db.categories then
      match checkGenres db genre with
      | .error e => .error e
      | .ok gs => .ok (some c, gs)
    else .error .validationErr
  | none =>
    match checkGenres db genre with
    | .error e => .error e
    | .ok gs => .ok (none, gs)

/-- The body of a PATCH request against a title: the optional category
value, the list of genre slugs, and the optional plain fields. -/
structure TitleUpdateData where
  category : Option String
  genres : List String
  name : Option String
  year : Option Int
  description : Option String
deriving DecidableEq, Repr

/-- The effect of `serializer.save(category=category[0])` on the
pk-targeted title instance: partial update of the validated plain fields
plus the category keyword argument (`genre` is read-only on
`TitleSerializer` and is not touched by the save). -/
def applyTitleSave (t : TitleRow) (d : TitleUpdateData) (c : String) : TitleRow :=
  { t with
    category := some c
    name := d.name.getD t.name
    year := d.year.getD t.year
    description := match d.description with
      | some s => some s
      | none => t.description }

/-- `title.genre.add(...)` for each requested genre: many-to-many
addition, which inserts each slug not already a member and never removes
a membership. -/
def addGenres (gs : List String) (new : List String) : List String :=
  new.foldl (fun acc g => if g ∈ acc then acc else acc ++ [g]) gs

/-- The title-update endpoint: DRF `update` fetches the pk title (404 if
absent), then `TitleViewSet.perform_update` (`api/views.py` lines
208-217): `check_category_genre` over the request body, `serializer.save`
ONLY when a category value was supplied, re-fetch of the title, and the
`genre.add` loop over the validated genre slugs. -/
def titleUpdate (db : DB) (pk : Nat) (d : TitleUpdateData) : DB × Option PyErr :=
  match db.titles pk with
  | none => (db, some .notFound)
  | some t0 =>
    match check_category_genre db d.category d.genres with
    | .error e => (db, some e)
    | .ok (realCat, genres) =>
      let db1 := match realCat with
        | some c => setTitle db pk (applyTitleSave t0 d c)
        | none => db
      match db1.titles pk with
      | none => (db1, some .notFound)
      | some t1 => (setTitle db1 pk { t1 with genres := addGenres t1.genres genres }, none)

/-- An HTTP method, as tested by the permission classes.  `SAFE_METHODS`
is `GET`, `HEAD`, `OPTIONS`. -/
inductive Method where
  | get
  | head
  | options
  | post
  | put
  | patch
  | delete
deriving DecidableEq, Repr

/-- `request.method in permissions.SAFE_METHODS`. -/
def Method.isSafe : Method → Bool
  | .get | .head | .options => true
  | _ => false

/-- The requesting actor: `request.user` is either Django's
`AnonymousUser` or an authenticated user row with an id and a role. -/
inductive Actor where
  | anon
  | auth (id : Nat) (role : Role)
deriving DecidableEq, Repr

/-- `request.user.is_authenticated`. -/
def Actor.isAuthenticated : Actor → Bool
  | .anon => false
  | .auth _ _ => true

/-- `obj.author == request.user`: an anonymous user never equals a
stored author row. -/
def Actor.isUser (a : Actor) (userId : Nat) : Bool :=
  match a with
  | .anon => false
  | .auth i _ => i == userId

/-- `request.user.role in ['moderator', 'admin']`.  In the source this
attribute access would raise AttributeError for an anonymous user, but
the route-level gate (`IsAuthenticatedOrReadOnly`) makes that case
unreachable for the write methods that evaluate it. -/
def Actor.isModeratorOrAdmin : Actor → Bool
  | .anon => false
  | .auth _ r => r == .moderator || r == .admin

/-- DRF's `IsAuthenticatedOrReadOnly.has_permission`. -/
def isAuthenticatedOrReadOnly (m : Method) (a : Actor) : Bool :=
  m.isSafe || a.isAuthenticated

/-- `ReviewAndComment.has_permission` (`api/permissions.py` lines
31-39).  The Python function returns `None` (falsy, hence deny) for a
method matching none of the branches, e.g. PUT. -/
def reviewAndCommentHasPermission (m : Method) (a : Actor) : Bool :=
  if m.isSafe then true
  else if m == .post then a.isAuthenticated
  else if m == .patch then true
  else if m == .delete then true
  else false

/-- `ReviewAndComment.has_object_permission` (`api/permissions.py` lines
41-48), against the object's author id.  Falls through to `None` (deny)
for methods other than GET/PATCH/DELETE. -/
def reviewAndCommentHasObjectPermission (m : Method) (a : Actor) (objAuthor : Nat) : Bool :=
  if m == .get then true
  else if m == .patch || m == .delete then
    a.isUser objAuthor || a.isModeratorOrAdmin
  else false

/-- Route-level decision for the Review/Comment viewsets:
`permission_classes = [IsAuthenticatedOrReadOnly, ReviewAndComment]`,
all of which must grant. -/
def reviewCommentRouteAllowed (m : Method) (a : Actor) : Bool :=
  isAuthenticatedOrReadOnly m a && reviewAndCommentHasPermission m a

/-- Object-level decision for a detail request against a Review/Comment
owned by `objAuthor`: route gate plus both classes' object checks
(`IsAuthenticatedOrReadOnly` inherits the always-true default). -/
def reviewCommentDetailAllowed (m : Method) (a : Actor) (objAuthor : Nat) : Bool :=
  reviewCommentRouteAllowed m a && reviewAndCommentHasObjectPermission m a objAuthor

/-- `UserPermission.has_permission` for the `users/me/` actions
(`api/permissions.py` lines 5-11): the me-actions require only
authentication. -/
def userPermissionMe (a : Actor) : Bool :=
  a.isAuthenticated

/-- The DELETE handler of `/v1/users/me/`: the permission gate (401 when
unauthenticated), then `UserViewSet.delete_me` (`api/views.py` lines
44-46), whose entire body is `return Response(status=405)` — no lookup,
no deletion, no write of any kind. -/
def usersMeDelete (db : DB) (a : Actor) : Nat × DB :=
  if userPermissionMe a then (405, db) else (401, db)

@[simp]
theorem setRate_rates_self (db : DB) (tid : Nat) (r : RateRow) :
    (setRate db tid r).rates tid = some r := by
  simp [setRate]

@[simp]
theorem setRate_titles (db : DB) (tid : Nat) (r : RateRow) :
    (setRate db tid r).titles = db.titles := rfl

@[simp]
theorem setRate_reviews (db : DB) (tid : Nat) (r : RateRow) :
    (setRate db tid r).reviews = db.reviews := rfl

@[simp]
theorem setTitle_titles_self (db : DB) (tid : Nat) (t : TitleRow) :
    (setTitle db tid t).titles tid = some t := by
  simp [setTitle]

@[simp]
theorem setTitle_rates (db : DB) (tid : Nat) (t : TitleRow) :
    (setTitle db tid t).rates = db.rates := rfl

@[simp]
theorem setTitle_reviews (db : DB) (tid : Nat) (t : TitleRow) :
    (setTitle db tid t).reviews = db.reviews := rfl

/-- A title with one review of score 8 by user 1, ledger `{sum:8,count:1}`,
stored rating 8: the smallest state on which deleting the sole review
trips the unguarded division. -/
def soleReviewDb : DB := {
  titles := fun k => if k = 1 then some ⟨"T", 2000, some 8, none, none, []⟩ else none
  rates := fun k => if k = 1 then some ⟨8, 1⟩ else none
  reviews := [⟨10, 1, 1, 8, "a"⟩]
  users := fun k => if k = 1 then some Role.user else none
  categories := []
  genreSlugs := [] }

/-- C1: deleting a title's sole review does NOT complete with a null
rating: after the ledger adjustment persists `{sum:0,count:0}`, the
rating recomputation `rate.sum_vote // rate.count_vote` divides by the
zero `count_vote` and raises ZeroDivisionError, so the review row is
never deleted and the stored rating stays at its old value instead of
reverting to null. -/
theorem destroy_sole_review_raises_zero_division :
    (destroyReview soleReviewDb 1 10).2 = some PyErr.zeroDivision ∧
    (destroyReview soleReviewDb 1 10).1.reviews = soleReviewDb.reviews ∧
    (destroyReview soleReviewDb 1 10).1.rates 1 = some ⟨0, 0⟩ ∧
    ((destroyReview soleReviewDb 1 10).1.titles 1).map TitleRow.rating = some (some 8) := by
  decide

/-- A title with ledger `{sum:9,count:2}` and reviews by users 1 and 2. -/
def twoReviewDb : DB := {
  titles := fun k => if k = 1 then some ⟨"T", 2000, some 4, none, none, []⟩ else none
  rates := fun k => if k = 1 then some ⟨9, 2⟩ else none
  reviews := [⟨10, 1, 1, 4, "a"⟩, ⟨11, 1, 2, 5, "b"⟩]
  users := fun k => if k = 1 ∨ k = 2 then some Role.user else none
  categories := []
  genreSlugs := [] }

/-- C2: a second create for a (title, author) pair that already has a
live review is rejected by `check_review` with the duplicate-review
domain error, and the returned state is exactly the input state — in
particular the ledger's `sum_vote` and `count_vote` are unchanged. -/
theorem create_duplicate_review_rejected (db : DB) (req tid newId : Nat) (score : Int)
    (text : String) (t : TitleRow) (hscore : 1 ≤ score ∧ score ≤ 10)
    (htitle : db.titles tid = some t) (hdup : hasOwnReview db req tid = true) :
    createReview db req tid newId score text = (db, some PyErr.duplicateReview) := by
  simp [createReview, htitle, hdup, hscore]

/-- Witness for C2: user 1 already reviewed title 1 in `twoReviewDb`, so
their second create (score 7) is rejected and the state is unchanged. -/
theorem create_duplicate_review_rejected_witness :
    createReview twoReviewDb 1 1 12 7 "x" = (twoReviewDb, some PyErr.duplicateReview) :=
  create_duplicate_review_rejected twoReviewDb 1 1 12 7 "x" ⟨"T", 2000, some 4, none, none, []⟩
    (by decide) (by decide) (by decide)

/-- C6: access policy of the Review/Comment viewsets.  Reading a
resource is allowed for every actor including the unauthenticated; a
create is allowed exactly for authenticated actors; an update (PATCH) or
delete of a specific object is allowed exactly when the requester is the
object's author or holds the moderator or admin role (either alone
suffices; an anonymous requester is neither). -/
theorem review_comment_access_policy (a : Actor) (objAuthor : Nat) :
    reviewCommentDetailAllowed Method.get a objAuthor = true ∧
    reviewCommentRouteAllowed Method.post a = a.isAuthenticated ∧
    reviewCommentDetailAllowed Method.patch a objAuthor
      = (a.isUser objAuthor || a.isModeratorOrAdmin) ∧
    reviewCommentDetailAllowed Method.delete a objAuthor
      = (a.isUser objAuthor || a.isModeratorOrAdmin) := by
  cases a <;>
    simp [reviewCommentDetailAllowed, reviewCommentRouteAllowed,
      reviewAndCommentHasPermission, reviewAndCommentHasObjectPermission,
      isAuthenticatedOrReadOnly, Method.isSafe, Actor.isAuthenticated,
      Actor.isUser, Actor.isModeratorOrAdmin]

/-- C8: for an authenticated requester the `delete_me` handler answers
HTTP 405 and returns the storage state unchanged: no account or other
record is ever removed through self-service deletion. -/
theorem delete_me_returns_405 (db : DB) (a : Actor) (h : a.isAuthenticated = true) :
    usersMeDelete db a = (405, db) := by
  simp [usersMeDelete, userPermissionMe, h]

/-- Witness for C8: authenticated user 1 calling DELETE `/v1/users/me/`
on `twoReviewDb` gets 405 with nothing changed. -/
theorem delete_me_returns_405_witness :
    usersMeDelete twoReviewDb (Actor.auth 1 Role.user) = (405, twoReviewDb) :=
  delete_me_returns_405 twoReviewDb (Actor.auth 1 Role.user) (by decide)

theorem createReview_ok_rating (db : DB) (req tid newId : Nat) (score : Int) (text : String)
    (db' : DB) (hc : createReview db req tid newId score text = (db', none)) :
    ∃ rate t, db'.rates tid = some rate ∧ db'.titles tid = some t ∧
      t.rating = some (Int.fdiv rate.sum_vote rate.count_vote) := by
  unfold createReview at hc
  dsimp only at hc
  split at hc
  · split at hc
    · simp at hc
    · rename_i title ht
      split at hc
      · simp at hc
      · split at hc
        · simp at hc
        · rename_i rate hrate
          split at hc
          · simp at hc
          · rename_i rv hdiv
            rw [Prod.mk.injEq] at hc
            obtain ⟨hdb, -⟩ := hc
            subst hdb
            refine ⟨⟨rate.sum_vote + score, rate.count_vote + 1⟩,
              { title with rating := some rv }, by simp, by simp, ?_⟩
            simp only [pyFloorDiv] at hdiv
            split at hdiv
            · cases hdiv
            · cases hdiv
              rfl
  · simp at hc

theorem updateReview_ok_rating (db : DB) (req tid pk : Nat) (score : Int) (text : String)
    (db' : DB) (hc : updateReview db req tid pk score text = (db', none)) :
    ∃ rate t, db'.rates tid = some rate ∧ db'.titles tid = some t ∧
      t.rating = some (Int.fdiv rate.sum_vote rate.count_vote) := by
  unfold updateReview at hc
  dsimp only at hc
  split at hc
  · simp at hc
  · split at hc
    · simp at hc
    · split at hc
      · split at hc
        · simp at hc
        · rename_i own hown
          split at hc
          · simp at hc
          · rename_i rate hrate
            split at hc
            · simp at hc
            · split at hc
              · simp at hc
              · rename_i title ht
                split at hc
                · simp at hc
                · rename_i rv hdiv
                  rw [Prod.mk.injEq] at hc
                  obtain ⟨hdb, -⟩ := hc
                  subst hdb
                  refine ⟨⟨rate.sum_vote - own.score + score, rate.count_vote⟩,
                    { title with rating := some rv }, by simp, by simp, ?_⟩
                  simp only [pyFloorDiv] at hdiv
                  split at hdiv
                  · cases hdiv
                  · cases hdiv
                    rfl
      · simp at hc

/-- C3: whenever a review create or a review update returns successfully,
the stored rating of the title equals `sum_vote // count_vote` — Python's
floor (truncating for the non-negative ledger) integer division — over
the ledger values the operation just wrote, in the very state the
operation returns (never stale). -/
theorem rating_recomputed_after_create_update (db : DB) (req tid pk newId : Nat)
    (score : Int) (text : String) :
    ((createReview db req tid newId score text).2 = none →
      ∃ rate t, (createReview db req tid newId score text).1.rates tid = some rate ∧
        (createReview db req tid newId score text).1.titles tid = some t ∧
        t.rating = some (Int.fdiv rate.sum_vote rate.count_vote)) ∧
    ((updateReview db req tid pk score text).2 = none →
      ∃ rate t, (updateReview db req tid pk score text).1.rates tid = some rate ∧
        (updateReview db req tid pk score text).1.titles tid = some t ∧
        t.rating = some (Int.fdiv rate.sum_vote rate.count_vote)) := by
  constructor
  · intro he
    rcases hc : createReview db req tid newId score text with ⟨db', e⟩
    rw [hc] at he
    dsimp only at he
    subst he
    exact createReview_ok_rating db req tid newId score text db' hc
  · intro he
    rcases hc : updateReview db req tid pk score text with ⟨db', e⟩
    rw [hc] at he
    dsimp only at he
    subst he
    exact updateReview_ok_rating db req tid pk score text db' hc

/-- Witness for C3: on a title with ledger `{sum:8,count:1}`, user 2
creating a review with score 5 succeeds and the recomputed rating is
`13 // 2 = 6`. -/
theorem rating_recomputed_after_create_update_witness :
    ((createReview soleReviewDb 2 1 11 5 "b").2 = none →
      ∃ rate t, (createReview soleReviewDb 2 1 11 5 "b").1.rates 1 = some rate ∧
        (createReview soleReviewDb 2 1 11 5 "b").1.titles 1 = some t ∧
        t.rating = some (Int.fdiv rate.sum_vote rate.count_vote)) ∧
    (∃ rate t, (createReview soleReviewDb 2 1 11 5 "b").1.rates 1 = some rate ∧
      (createReview soleReviewDb 2 1 11 5 "b").1.titles 1 = some t ∧
      t.rating = some 6) := by
  have h := rating_recomputed_after_create_update soleReviewDb 2 1 0 11 5 "b"
  refine ⟨h.1, ?_⟩
  obtain ⟨rate, t, h1, h2, h3⟩ := h.1 (by decide)
  have hr : rate = ⟨13, 2⟩ := Option.some.inj (by rw [← h1]; decide)
  subst hr
  exact ⟨_, t, h1, h2, by simpa using h3⟩

/-- C4: updating an existing review from score S to score S' adjusts the
ledger by exactly S' − S on `sum_vote`, leaves `count_vote` unchanged,
and recomputes the stored rating from the adjusted ledger. -/
theorem update_net_delta (db : DB) (req tid : Nat) (score : Int) (text : String)
    (own : ReviewRow) (rate : RateRow) (t : TitleRow)
    (htitle : db.titles tid = some t)
    (hscore : 1 ≤ score ∧ score ≤ 10)
    (hinst : findReview db tid own.id = some own)
    (hown : findOwnReview db req tid = some own)
    (hrate : db.rates tid = some rate)
    (hclash : uniqueClash db own.id req tid = false)
    (hcount : rate.count_vote ≠ 0) :
    (updateReview db req tid own.id score text).2 = none ∧
    (updateReview db req tid own.id score text).1.rates tid
      = some ⟨rate.sum_vote + (score - own.score), rate.count_vote⟩ ∧
    ∃ t1, (updateReview db req tid own.id score text).1.titles tid = some t1 ∧
      t1.rating = some (Int.fdiv (rate.sum_vote + (score - own.score)) rate.count_vote) := by
  have harith : rate.sum_vote - own.score + score = rate.sum_vote + (score - own.score) := by
    omega
  unfold updateReview
  simp only [htitle, hinst, hown, hrate, hclash, hscore, and_self, if_true,
    Bool.false_eq_true, if_false, pyFloorDiv, hcount, setRate_titles]
  simp [setRate, setTitle, hcount, harith]

/-- Scenario D of the spec: ledger `{sum:13,count:2}`, reviews by user 1
(score 8) and user 2 (score 5). -/
def scenarioDDb : DB := {
  titles := fun k => if k = 1 then some ⟨"T", 2000, some 6, none, none, []⟩ else none
  rates := fun k => if k = 1 then some ⟨13, 2⟩ else none
  reviews := [⟨10, 1, 1, 8, "a"⟩, ⟨11, 1, 2, 5, "b"⟩]
  users := fun k => if k = 1 ∨ k = 2 then some Role.user else none
  categories := []
  genreSlugs := [] }

/-- Witness for C4: user 1 updates their review from 8 to 4 on ledger
`{sum:13,count:2}`: the ledger becomes `{sum:9,count:2}` and the rating
`9 // 2 = 4`. -/
theorem update_net_delta_witness :
    (updateReview scenarioDDb 1 1 10 4 "c").2 = none ∧
    (updateReview scenarioDDb 1 1 10 4 "c").1.rates 1 = some ⟨9, 2⟩ ∧
    ∃ t1, (updateReview scenarioDDb 1 1 10 4 "c").1.titles 1 = some t1 ∧
      t1.rating = some 4 := by
  have h := update_net_delta scenarioDDb 1 1 4 "c" ⟨10, 1, 1, 8, "a"⟩ ⟨13, 2⟩
    ⟨"T", 2000, some 6, none, none, []⟩ (by decide) (by decide) (by decide) (by decide)
    (by decide) (by decide) (by decide)
  refine ⟨h.1, ?_, ?_⟩
  · rw [h.2.1]
    decide
  · obtain ⟨t1, ht1, hr⟩ := h.2.2
    refine ⟨t1, ht1, ?_⟩
    rw [hr]
    decide

theorem find?_append_of_forall_false {α : Type} (p : α → Bool) (l₁ l₂ : List α)
    (h : ∀ x ∈ l₁, p x = false) : (l₁ ++ l₂).find? p = l₂.find? p := by
  induction l₁ with
  | nil => rfl
  | cons a l ih =>
    rw [List.cons_append, List.find?_cons_of_neg _ (by simp [h a (by simp)])]
    exact ih fun x hx => h x (by simp [hx])

theorem createReview_eq (db : DB) (req tid newId : Nat) (score : Int) (text : String)
    (t : TitleRow) (rate : RateRow)
    (hscore : 1 ≤ score ∧ score ≤ 10)
    (htitle : db.titles tid = some t)
    (hnodup : hasOwnReview db req tid = false)
    (hrate : db.rates tid = some rate)
    (hcount : rate.count_vote + 1 ≠ 0) :
    createReview db req tid newId score text =
      (setTitle (setRate { db with reviews := db.reviews ++ [⟨newId, tid, req, score, text⟩] }
          tid ⟨rate.sum_vote + score, rate.count_vote + 1⟩) tid
        { t with rating := some (Int.fdiv (rate.sum_vote + score) (rate.count_vote + 1)) },
       none) := by
  unfold createReview
  simp [htitle, hnodup, hrate, hscore, pyFloorDiv, hcount]

theorem destroyReview_rates (db : DB) (tid pk : Nat) (inst : ReviewRow) (t : TitleRow)
    (rate : RateRow) (htitle : db.titles tid = some t)
    (hinst : findReview db tid pk = some inst) (hrate : db.rates tid = some rate) :
    (destroyReview db tid pk).1.rates tid
      = some ⟨rate.sum_vote - inst.score, rate.count_vote - 1⟩ := by
  unfold destroyReview
  simp only [htitle, hinst, hrate, setRate_titles]
  split
  · simp
  · simp [setTitle, setRate]

/-- C5: creating a review with a score in [1,10] and then deleting that
same review restores the title's ledger to its exact pre-create values:
both `sum_vote` and `count_vote` return to what they were (the ledger
adjustments `+score,+1` and `-score,-1` cancel; the ledger save in the
delete happens before the rating recomputation, so this holds even when
the delete's recomputation subsequently fails on a zero count). -/
theorem create_then_delete_restores_ledger (db : DB) (req tid newId : Nat) (score : Int)
    (text : String) (t : TitleRow) (rate : RateRow)
    (hscore : 1 ≤ score ∧ score ≤ 10)
    (htitle : db.titles tid = some t)
    (hnodup : hasOwnReview db req tid = false)
    (hrate : db.rates tid = some rate)
    (hcount : 0 ≤ rate.count_vote)
    (hfresh : ∀ r ∈ db.reviews, r.id ≠ newId) :
    (createReview db req tid newId score text).2 = none ∧
    (destroyReview (createReview db req tid newId score text).1 tid newId).1.rates tid
      = some rate := by
  have hc := createReview_eq db req tid newId score text t rate hscore htitle hnodup hrate
    (by omega)
  rw [hc]
  refine ⟨rfl, ?_⟩
  rw [destroyReview_rates _ tid newId ⟨newId, tid, req, score, text⟩
      { t with rating := some (Int.fdiv (rate.sum_vote + score) (rate.count_vote + 1)) }
      ⟨rate.sum_vote + score, rate.count_vote + 1⟩ (by simp) ?_ (by simp)]
  · have h1 : rate.sum_vote + score - score = rate.sum_vote := by omega
    have h2 : rate.count_vote + 1 - 1 = rate.count_vote := by omega
    simp only [h1, h2]
  · show findReview _ tid newId = _
    simp only [findReview, setTitle_reviews, setRate_reviews]
    rw [find?_append_of_forall_false]
    · simp
    · intro x hx
      simp [hfresh x hx]

/-- Witness for C5: on the one-review state with ledger `{sum:8,count:1}`,
user 2 creates a review with score 5 (ledger `{13,2}`) and deletes it
again: the ledger returns to `{sum:8,count:1}`. -/
theorem create_then_delete_restores_ledger_witness :
    (createReview soleReviewDb 2 1 11 5 "b").2 = none ∧
    (destroyReview (createReview soleReviewDb 2 1 11 5 "b").1 1 11).1.rates 1
      = some ⟨8, 1⟩ :=
  create_then_delete_restores_ledger soleReviewDb 2 1 11 5 "b"
    ⟨"T", 2000, some 8, none, none, []⟩ ⟨8, 1⟩ (by decide) (by decide) (by decide)
    (by decide) (by decide) (by decide)

/-- C7: a create with a score outside [1,10] is rejected by the
serializer's score validators with the state completely unchanged, and
an update with such a score leaves the state unchanged as well — with
the same validation error whenever the targeted title and review exist
(when they do not, the earlier existence lookup already answered 404
without mutating anything). -/
theorem invalid_score_rejected (db : DB) (req tid pk newId : Nat) (score : Int)
    (text : String) (hbad : ¬(1 ≤ score ∧ score ≤ 10)) :
    createReview db req tid newId score text = (db, some PyErr.invalidScore) ∧
    (updateReview db req tid pk score text).1 = db ∧
    (∀ t, db.titles tid = some t → ∀ inst, findReview db tid pk = some inst →
      updateReview db req tid pk score text = (db, some PyErr.invalidScore)) := by
  refine ⟨by simp [createReview, hbad], ?_, ?_⟩
  · unfold updateReview
    split
    · rfl
    · split
      · rfl
      · simp [hbad]
  · intro t ht inst hinst
    simp [updateReview, ht, hinst, hbad]

/-- Witness for C7: score 11 is rejected on create and on update of the
existing review 10 of title 1, with the state unchanged. -/
theorem invalid_score_rejected_witness :
    createReview twoReviewDb 1 1 12 11 "x" = (twoReviewDb, some PyErr.invalidScore) ∧
    updateReview twoReviewDb 1 1 10 11 "x" = (twoReviewDb, some PyErr.invalidScore) := by
  have h := invalid_score_rejected twoReviewDb 1 1 10 12 11 "x" (by decide)
  exact ⟨h.1, h.2.2 ⟨"T", 2000, some 4, none, none, []⟩ (by decide)
    ⟨10, 1, 1, 4, "a"⟩ (by decide)⟩

theorem mem_addGenres_of_mem (new gs : List String) (g : String) (h : g ∈ gs) :
    g ∈ addGenres gs new := by
  unfold addGenres
  induction new generalizing gs with
  | nil => exact h
  | cons a rest ih =>
    simp only [List.foldl_cons]
    apply ih
    split
    · exact h
    · simp [h]

theorem mem_of_mem_addGenres (new gs : List String) (g : String)
    (h : g ∈ addGenres gs new) : g ∈ gs ∨ g ∈ new := by
  unfold addGenres at h
  induction new generalizing gs with
  | nil => exact Or.inl h
  | cons a rest ih =>
    simp only [List.foldl_cons] at h
    rcases ih _ h with hm | hm
    · split at hm
      · exact Or.inl hm
      · rcases List.mem_append.mp hm with hm' | hm'
        · exact Or.inl hm'
        · simp at hm'
          simp [hm']
    · simp [hm]

theorem checkGenres_subset (db : DB) (l gs : List String)
    (h : checkGenres db l = .ok gs) : ∀ g ∈ gs, g ∈ l := by
  induction l generalizing gs with
  | nil =>
    unfold checkGenres at h
    cases h
    simp
  | cons a rest ih =>
    unfold checkGenres at h
    split at h
    · split at h
      · cases h
      · cases h
        rename_i gs' hg'
        intro g hg
        rcases List.mem_cons.mp hg with rfl | hm
        · simp
        · exact List.mem_cons_of_mem _ (ih _ hg' g hm)
    · cases h

theorem titleUpdate_cases (db : DB) (pk : Nat) (d : TitleUpdateData) (t0 : TitleRow)
    (ht : db.titles pk = some t0) :
    (titleUpdate db pk d).1.titles pk = some t0 ∨
    (∃ gs, checkGenres db d.genres = Except.ok gs ∧
      ((d.category = none ∧
        (titleUpdate db pk d).1.titles pk
          = some { t0 with genres := addGenres t0.genres gs }) ∨
       (∃ c, d.category = some c ∧
        (titleUpdate db pk d).1.titles pk
          = some { applyTitleSave t0 d c with genres := addGenres t0.genres gs }))) := by
  unfold titleUpdate
  simp only [ht]
  split
  · exact Or.inl ht
  · rename_i realCat gs hcg
    cases realCat with
    | none =>
      simp only [ht]
      refine Or.inr ⟨gs, ?_, Or.inl ⟨?_, by simp⟩⟩ <;>
      · unfold check_category_genre at hcg
        split at hcg
        · split at hcg
          · split at hcg
            · cases hcg
            · cases hcg
          · cases hcg
        · rename_i hnone
          split at hcg
          · cases hcg
          · cases hcg
            assumption
    | some c =>
      simp only [setTitle_titles_self]
      refine Or.inr ⟨gs, ?_, Or.inr ⟨c, ?_, by simp [applyTitleSave]⟩⟩
      · unfold check_category_genre at hcg
        split at hcg
        · split at hcg
          · split at hcg
            · cases hcg
            · cases hcg
              assumption
          · cases hcg
        · split at hcg
          · cases hcg
          · cases hcg
      · unfold check_category_genre at hcg
        split at hcg
        · split at hcg
          · split at hcg
            · cases hcg
            · cases hcg
              assumption
          · cases hcg
        · split at hcg
          · cases hcg
          · cases hcg

/-- C9: a title update whose request body carries no category value never
reaches `serializer.save`, so the title's name, year, description and
category are all left exactly as they were; and in every title update the
requested genres are only ever ADDED to the title's genre set — existing
genre memberships are never removed and nothing outside the request is
added. -/
theorem title_update_frame (db : DB) (pk : Nat) (d : TitleUpdateData) (t0 : TitleRow)
    (ht : db.titles pk = some t0) :
    (d.category = none →
      ∃ t1, (titleUpdate db pk d).1.titles pk = some t1 ∧
        t1.name = t0.name ∧ t1.year = t0.year ∧ t1.description = t0.description ∧
        t1.category = t0.category) ∧
    (∀ t1, (titleUpdate db pk d).1.titles pk = some t1 →
      (∀ g ∈ t0.genres, g ∈ t1.genres) ∧
      (∀ g ∈ t1.genres, g ∈ t0.genres ∨ g ∈ d.genres)) := by
  rcases titleUpdate_cases db pk d t0 ht with h | ⟨gs, hgs, h | ⟨c, hc, h⟩⟩
  · constructor
    · intro _
      exact ⟨t0, h, rfl, rfl, rfl, rfl⟩
    · intro t1 ht1
      rw [h] at ht1
      obtain rfl := Option.some.inj ht1
      exact ⟨fun g hg => hg, fun g hg => Or.inl hg⟩
  · obtain ⟨hnone, hres⟩ := h
    constructor
    · intro _
      exact ⟨_, hres, rfl, rfl, rfl, rfl⟩
    · intro t1 ht1
      rw [hres] at ht1
      obtain rfl := Option.some.inj ht1
      constructor
      · intro g hg
        exact mem_addGenres_of_mem gs t0.genres g hg
      · intro g hg
        rcases mem_of_mem_addGenres gs t0.genres g hg with hm | hm
        · exact Or.inl hm
        · exact Or.inr (checkGenres_subset db d.genres gs hgs g hm)
  · constructor
    · intro hnone
      rw [hc] at hnone
      cases hnone
    · intro t1 ht1
      rw [h] at ht1
      obtain rfl := Option.some.inj ht1
      constructor
      · intro g hg
        exact mem_addGenres_of_mem gs t0.genres g hg
      · intro g hg
        rcases mem_of_mem_addGenres gs t0.genres g hg with hm | hm
        · exact Or.inl hm
        · exact Or.inr (checkGenres_subset db d.genres gs hgs g hm)

/-- A title with genre `g0` in a catalog knowing category `c1` and
genres `g0`, `g1`. -/
def titleFrameDb : DB := {
  titles := fun k => if k = 1 then some ⟨"T", 2000, none, none, none, ["g0"]⟩ else none
  rates := fun k => if k = 1 then some ⟨0, 0⟩ else none
  reviews := []
  users := fun _ => none
  categories := ["c1"]
  genreSlugs := ["g0", "g1"] }

/-- Witness for C9: a category-less update that asks to rename the title,
change its year and description, and add genre `g1`, leaves name, year,
description and category untouched, keeps `g0`, and adds at most `g1`. -/
theorem title_update_frame_witness :
    ∃ t1, (titleUpdate titleFrameDb 1
        ⟨none, ["g1"], some "NEW", some 1999, some "D"⟩).1.titles 1 = some t1 ∧
      t1.name = "T" ∧ t1.year = 2000 ∧ t1.description = none ∧ t1.category = none ∧
      "g0" ∈ t1.genres ∧ ∀ g ∈ t1.genres, g = "g0" ∨ g = "g1" := by
  have h := title_update_frame titleFrameDb 1 ⟨none, ["g1"], some "NEW", some 1999, some "D"⟩
    ⟨"T", 2000, none, none, none, ["g0"]⟩ (by decide)
  obtain ⟨t1, ht1, h1, h2, h3, h4⟩ := h.1 rfl
  obtain ⟨hkeep, honly⟩ := h.2 t1 ht1
  refine ⟨t1, ht1, h1, h2, h3, h4, hkeep "g0" (by simp), ?_⟩
  intro g hg
  rcases honly g hg with hm | hm <;> simp_all

theorem updateReview_ok_reviews (db : DB) (req tid pk : Nat) (score : Int) (text : String)
    (db' : DB) (hc : updateReview db req tid pk score text = (db', none)) :
    db'.reviews = db.reviews.map (fun r => if r.id == pk then
      { r with titleId := tid, author := req, score := score, text := text } else r) := by
  unfold updateReview at hc
  dsimp only at hc
  split at hc
  · simp at hc
  · split at hc
    · simp at hc
    · split at hc
      · split at hc
        · simp at hc
        · split at hc
          · simp at hc
          · split at hc
            · simp at hc
            · split at hc
              · simp at hc
              · split at hc
                · simp at hc
                · rw [Prod.mk.injEq] at hc
                  obtain ⟨hdb, -⟩ := hc
                  subst hdb
                  rfl
      · simp at hc

/-- Two reviews on title 1: review 10 by user 1 (score 8) and review 11
by user 2 (score 5), ledger `{sum:13,count:2}`; user 2 is a moderator. -/
def crossUpdateDb : DB := {
  titles := fun k => if k = 1 then some ⟨"T", 2000, some 6, none, none, []⟩ else none
  rates := fun k => if k = 1 then some ⟨13, 2⟩ else none
  reviews := [⟨10, 1, 1, 8, "a"⟩, ⟨11, 1, 2, 5, "b"⟩]
  users := fun k => if k = 1 then some Role.user else if k = 2 then some Role.moderator
    else none
  categories := []
  genreSlugs := [] }

/-- Counterexample to C10 as stated: moderator 2, who has their own
review (id 11, score 5) on title 1, sends an update targeting review 10,
which belongs to user 1.  The claim says the operation saves with the
requester as author (operating on the requester's own review); in fact
`serializer.save` rewrites the pk-targeted row 10 to author 2, which
collides with the `('title','author')` unique constraint (row 11 is
already (title 1, author 2)), so the update fails with an integrity
error, no review row changes, and the ledger is untouched. -/
theorem update_cross_author_counterexample :
    (updateReview crossUpdateDb 2 1 10 4 "c").2 = some PyErr.integrityError ∧
    (updateReview crossUpdateDb 2 1 10 4 "c").1.reviews = crossUpdateDb.reviews ∧
    (updateReview crossUpdateDb 2 1 10 4 "c").1.rates 1 = some ⟨13, 2⟩ := by
  decide

/-- C10 as amended: `perform_update` keys the ledger adjustment to the
review authored by the requester for the URL's title — answering
NotFound when the requester has no review there — and passes the
requester as the saved author; but when the request targets a review
identity belonging to a different author, the save violates the
`('title','author')` uniqueness constraint and the update fails with
nothing persisted, so an update can only ever complete against the
requester's own review, whose author it keeps as the requester. -/
theorem update_keyed_to_requester (db : DB) (req tid pk : Nat) (score : Int) (text : String)
    (inst : ReviewRow) (t : TitleRow) (rate : RateRow)
    (hids : (db.reviews.map ReviewRow.id).Nodup)
    (htitle : db.titles tid = some t)
    (hinst : findReview db tid pk = some inst)
    (hrate : db.rates tid = some rate)
    (hscore : 1 ≤ score ∧ score ≤ 10) :
    (findOwnReview db req tid = none →
      updateReview db req tid pk score text = (db, some PyErr.notFound)) ∧
    (∀ own, findOwnReview db req tid = some own → inst.author ≠ req →
      updateReview db req tid pk score text = (db, some PyErr.integrityError)) ∧
    ((updateReview db req tid pk score text).2 = none →
      ∀ r ∈ (updateReview db req tid pk score text).1.reviews, r.id = pk → r.author = req) := by
  refine ⟨?_, ?_, ?_⟩
  · intro hnone
    simp [updateReview, htitle, hinst, hscore, hnone]
  · intro own hown hne
    have hmem : own ∈ db.reviews := List.mem_of_find?_eq_some hown
    have hpred := List.find?_some hown
    simp only [findOwnReview] at hown
    simp only [Bool.and_eq_true, beq_iff_eq] at hpred
    have hinstmem : inst ∈ db.reviews := List.mem_of_find?_eq_some hinst
    have hinstpred := List.find?_some hinst
    simp only [Bool.and_eq_true, beq_iff_eq] at hinstpred
    have hop : own.id ≠ pk := by
      intro h
      have hoe : own = inst :=
        List.inj_on_of_nodup_map hids hmem hinstmem (by rw [h, hinstpred.1])
      rw [hoe] at hpred
      exact hne hpred.1
    have hclash : uniqueClash db pk req tid = true := by
      unfold uniqueClash
      rw [List.any_eq_true]
      refine ⟨own, hmem, ?_⟩
      simp [hop, hpred.1, hpred.2]
    simp [updateReview, htitle, hinst, hscore, hown, hrate, hclash, findOwnReview]
  · intro hok r hr hrid
    have heq : updateReview db req tid pk score text
        = ((updateReview db req tid pk score text).1, none) := by
      rw [← hok]
    have hrev := updateReview_ok_reviews db req tid pk score text
      (updateReview db req tid pk score text).1 heq
    rw [hrev] at hr
    rcases List.mem_map.mp hr with ⟨x, hx, hfx⟩
    by_cases hxid : x.id = pk
    · rw [if_pos (by simpa using hxid)] at hfx
      rw [← hfx]
    · rw [if_neg (by simpa using hxid)] at hfx
      rw [← hfx] at hrid
      exact absurd hrid hxid

/-- Witness for C10's amended statement: requester 3 has no review on
title 1, so their update targeting review 10 answers NotFound with the
state unchanged. -/
theorem update_keyed_to_requester_witness :
    updateReview crossUpdateDb 3 1 10 4 "c" = (crossUpdateDb, some PyErr.notFound) :=
  (update_keyed_to_requester crossUpdateDb 3 1 10 4 "c" ⟨10, 1, 1, 8, "a"⟩
    ⟨"T", 2000, some 6, none, none, []⟩ ⟨13, 2⟩ (by decide) (by decide) (by decide)
    (by decide) (by decide)).1 (by decide)
